import Mathlib

/-!
Verification of the configuration self-healing and update-notification
logic of `src/app/app.service.ts` (class `AppService`).

The TypeScript service is embedded shallowly:

* the mutable `Config` tree becomes an immutable Lean structure and every
  in-place mutating patch becomes a function `Config → Config`;
* optional / deletable fields (fields that a validation error can report
  as missing, or that a patch deletes) become `Option` fields, with
  `Option.getD _ false` embedding the nullish-coalescing default;
* the service's mutable fields become an `AppState` record, and each
  event handler becomes a function on `AppState`;
* the HTTP poll of `checkUpdate` is embedded by passing the eventual
  outcome of the request (`PollResult`) as an argument; the calls the
  handler makes to external collaborators (`saveConfig`, `setTimeout`,
  the notification surface) are returned explicitly as lists.
-/

namespace OctoDash

/-- The `tpLinkSmartPlug` plugin section of the config tree. -/
structure TpLinkSmartPlug where
  enabled : Bool
  smartPlugIP : String
deriving DecidableEq, Repr

/-- The `printer` section; `zBabystepGCode` may be missing. -/
structure PrinterConfig where
  zBabystepGCode : Option String
deriving DecidableEq, Repr

/-- The `psuControl` plugin section; `turnOnPSUWhenExitingSleep` may be
missing, and the fourth patch deletes it (sets it to `none`). -/
structure PsuControl where
  turnOnPSUWhenExitingSleep : Option Bool
deriving DecidableEq, Repr

/-- The `plugins` section of the config tree. -/
structure PluginsConfig where
  tpLinkSmartPlug : Option TpLinkSmartPlug
  psuControl : PsuControl
deriving DecidableEq, Repr

/-- The `octodash` section of the config tree. -/
structure OctodashConfig where
  previewProgressCircle : Option Bool
  turnOnPrinterWhenExitingSleep : Option Bool
deriving DecidableEq, Repr

/-- The configuration tree, restricted to the sections the registered
patches of `AppService` read or write. -/
structure Config where
  printer : PrinterConfig
  plugins : PluginsConfig
  octodash : OctodashConfig
deriving DecidableEq, Repr

/-- A `Config` in which every optional field is absent. -/
def emptyConfig : Config :=
  { printer := { zBabystepGCode := none }
    plugins := { tpLinkSmartPlug := none, psuControl := { turnOnPSUWhenExitingSleep := none } }
    octodash := { previewProgressCircle := none, turnOnPrinterWhenExitingSleep := none } }

/-- Patch for `".printer should have required property 'zBabystepGCode'"`:
`config.printer.zBabystepGCode = 'M290 Z'`. -/
def patchZBabystepGCode (config : Config) : Config :=
  { config with printer := { config.printer with zBabystepGCode := some "M290 Z" } }

/-- Patch for `".plugins should have required property 'tpLinkSmartPlug'"`:
`config.plugins.tpLinkSmartPlug = \x7b enabled: true, smartPlugIP: '127.0.0.1' \x7d`. -/
def patchTpLinkSmartPlug (config : Config) : Config :=
  { config with plugins :=
      { config.plugins with tpLinkSmartPlug := some { enabled := true, smartPlugIP := "127.0.0.1" } } }

/-- Patch for `".octodash should have required property 'previewProgressCircle'"`:
`config.octodash.previewProgressCircle = false`. -/
def patchPreviewProgressCircle (config : Config) : Config :=
  { config with octodash := { config.octodash with previewProgressCircle := some false } }

/-- Patch for `".octodash should have required property 'turnOnPrinterWhenExitingSleep'"`:
copies `config.plugins.psuControl.turnOnPSUWhenExitingSleep ?? false` into
`config.octodash.turnOnPrinterWhenExitingSleep`, then deletes the source
field `config.plugins.psuControl.turnOnPSUWhenExitingSleep`. -/
def patchTurnOnPrinterWhenExitingSleep (config : Config) : Config :=
  { config with
    octodash := { config.octodash with
      turnOnPrinterWhenExitingSleep :=
        some (config.plugins.psuControl.turnOnPSUWhenExitingSleep.getD false) }
    plugins := { config.plugins with
      psuControl := { config.plugins.psuControl with turnOnPSUWhenExitingSleep := none } } }

/-- The `updateError` registry built in the constructor of `AppService`:
an association list from error-identifier string to its patch, in the
declaration order of the source. -/
def updateError : List (String × (Config → Config)) :=
  [(".printer should have required property 'zBabystepGCode'", patchZBabystepGCode),
   (".plugins should have required property 'tpLinkSmartPlug'", patchTpLinkSmartPlug),
   (".octodash should have required property 'previewProgressCircle'", patchPreviewProgressCircle),
   (".octodash should have required property 'turnOnPrinterWhenExitingSleep'",
     patchTurnOnPrinterWhenExitingSleep)]

/-- Looks an error identifier up in the registry (first matching key). -/
def lookupError (error : String) : Option (Config → Config) :=
  updateError.lookup error

/-- Membership of an error identifier in the registry; embeds the
`_.hasIn(this.updateError, error)` test, which on this fixed four-key
object succeeds exactly for the four registered identifier strings. -/
def hasIn (error : String) : Bool :=
  (lookupError error).isSome

/-- The keys of the registry, as produced by `_.keys(this.updateError)`. -/
def updateErrorKeys : List String :=
  updateError.map Prod.fst

/-- One iteration of the loop body of `fixUpdateErrors`: the state is the
borrowed config together with the `fullyAutofixed` flag. -/
def fixStep (st : Config × Bool) (error : String) : Config × Bool :=
  match lookupError error with
  | some patch => (patch st.1, st.2)
  | none => (st.1, false)

/-- The observable outcome of one `fixUpdateErrors` call: the configs
passed to `configService.saveConfig`, in call order, and the returned
boolean. -/
structure FixResult where
  saved : List Config
  result : Bool
deriving DecidableEq, Repr

/-- `fixUpdateErrors(errors)`: borrows the current config once, walks the
batch in input order applying the registered patch of each known
identifier and clearing `fullyAutofixed` on each unknown one, then saves
the config exactly once and returns the flag. -/
def fixUpdateErrors (current : Config) (errors : List String) : FixResult :=
  let final := errors.foldl fixStep (current, true)
  { saved := [final.1], result := final.2 }

/-- `_.intersection` of two string lists: the distinct values of the
first list that also occur in the second. -/
def intersection (xs ys : List String) : List String :=
  xs.eraseDups.filter (fun x => ys.contains x)

/-- `hasUpdateError(errors)`: whether the intersection of the batch with
the registry's keys is non-empty. -/
def hasUpdateError (errors : List String) : Bool :=
  (intersection errors updateErrorKeys).length > 0

/-- The mutable fields of `AppService` that the update checker and the
loaded-file flag use. Fields that are `undefined` until first assigned
(`version`, `latestVersion`, `latestVersionAssetsURL`) are `Option`s. -/
structure AppState where
  version : Option String
  latestVersion : Option String
  latestVersionAssetsURL : Option String
  updateAvailable : Bool
  loadedFile : Bool
deriving DecidableEq, Repr

/-- The field initializers of `AppService`: `updateAvailable = false`,
`loadedFile = false`, the three string fields unassigned. -/
def initialState : AppState :=
  { version := none, latestVersion := none, latestVersionAssetsURL := none
    updateAvailable := false, loadedFile := false }

/-- JavaScript `s.replace("v", "")` with a string pattern: removes the
first occurrence of the character `v` (anywhere in the string), and
leaves every other character, including later occurrences of `v`. -/
def removeFirstVAux : List Char → List Char
  | [] => []
  | c :: cs => if c = 'v' then cs else c :: removeFirstVAux cs

/-- `name.replace("v", "")` as used in `checkUpdate`. -/
def removeFirstV (s : String) : String :=
  ⟨removeFirstVAux s.data⟩

/-- The eventual outcome of the HTTP request issued by `checkUpdate`:
either the release metadata of the success callback, or the error branch. -/
inductive PollResult where
  | success (name assetsUrl : String)
  | failure
deriving DecidableEq, Repr

/-- The observable outcome of one `checkUpdate()` invocation: the state
after the subscription callback settles, the delays (ms) passed to
`setTimeout` during the invocation, and the `setError` notifications
raised. -/
structure CheckUpdateResult where
  state : AppState
  scheduledDelays : List Nat
  notifications : List (String × String)
deriving DecidableEq, Repr

/-- `checkUpdate()`, given the outcome `r` of the single HTTP request it
issues. On success it sets `updateAvailable` to `true` when
`this.version !== data.name.replace("v", "")` and then stores the
stripped name and the assets URL unconditionally; on failure the error
callback does nothing. Either way the invocation itself arms one timer
of 3600000 ms (the `setTimeout` runs at invocation time, outside the
subscription callbacks) and raises no notification. -/
def checkUpdate (s : AppState) (r : PollResult) : CheckUpdateResult :=
  match r with
  | .success name assetsUrl =>
      let stripped := removeFirstV name
      let s1 := if s.version ≠ some stripped then { s with updateAvailable := true } else s
      { state := { s1 with latestVersion := some stripped
                           latestVersionAssetsURL := some assetsUrl }
        scheduledDelays := [3600000]
        notifications := [] }
  | .failure =>
      { state := s, scheduledDelays := [3600000], notifications := [] }

/-- The `versionInformation` IPC handler of `enableVersionListener`:
stores the announced version verbatim (it then triggers `checkUpdate`,
embedded separately as a poll event). -/
def onVersionInformation (s : AppState) (version : String) : AppState :=
  { s with version := some version }

/-- `setLoadedFile(value)`. -/
def setLoadedFile (s : AppState) (value : Bool) : AppState :=
  { s with loadedFile := value }

/-- The events that can touch the service's state after construction. -/
inductive AppEvent where
  | versionInformation (version : String)
  | pollSuccess (name assetsUrl : String)
  | pollFailure
  | loadedFile (value : Bool)
deriving DecidableEq, Repr

/-- One step of the service's state machine. -/
def step (s : AppState) : AppEvent → AppState
  | .versionInformation v => onVersionInformation s v
  | .pollSuccess name url => (checkUpdate s (.success name url)).state
  | .pollFailure => (checkUpdate s .failure).state
  | .loadedFile b => setLoadedFile s b

/-- Modelled from the spec: the spec's own stripping rule for the polled
release name, "strip a leading literal v if present" and otherwise leave
the name unchanged. Used only to compare the spec's words with the
source's `removeFirstV`. -/
def specStripLeadingV (s : String) : String :=
  match s.data with
  | 'v' :: rest => ⟨rest⟩
  | _ => s

/-! ### Helper lemmas -/

/-- The config component of the `fixUpdateErrors` loop applies exactly
the patches of the registered identifiers, in input order, threading one
config through the whole batch. -/
theorem foldl_fixStep_fst (errors : List String) (c : Config) (acc : Bool) :
    (errors.foldl fixStep (c, acc)).1
      = (errors.filterMap lookupError).foldl (fun cfg patch => patch cfg) c := by
  induction errors generalizing c acc with
  | nil => rfl
  | cons e rest ih =>
      cases h : lookupError e with
      | none =>
          simp only [List.foldl_cons, List.filterMap_cons, fixStep, h]
          exact ih c false
      | some p =>
          simp only [List.foldl_cons, List.filterMap_cons, fixStep, h]
          exact ih (p c) acc

/-- The flag component of the `fixUpdateErrors` loop is the conjunction
of the incoming flag with registration of every identifier of the batch. -/
theorem foldl_fixStep_snd (errors : List String) (c : Config) (acc : Bool) :
    (errors.foldl fixStep (c, acc)).2 = (acc && errors.all hasIn) := by
  induction errors generalizing c acc with
  | nil => simp
  | cons e rest ih =>
      cases h : lookupError e with
      | none => simp [fixStep, h, ih, hasIn]
      | some p => simp [fixStep, h, ih, hasIn]

/-- Membership in the accumulator loop of `List.eraseDups`. -/
theorem mem_eraseDups_loop {α} [BEq α] [LawfulBEq α] (a : α) (as bs : List α) :
    a ∈ List.eraseDups.loop as bs ↔ a ∈ as ∨ a ∈ bs := by
  induction as generalizing bs with
  | nil => simp [List.eraseDups.loop]
  | cons x xs ih =>
      simp only [List.eraseDups.loop]
      cases h : bs.elem x with
      | true =>
          have hx : x ∈ bs := by simpa [List.elem_iff] using h
          rw [ih]
          simp only [List.mem_cons]
          constructor
          · tauto
          · rintro ((rfl | ha) | hb) <;> tauto
      | false =>
          rw [ih]
          simp only [List.mem_cons]
          tauto

/-- Membership in `List.eraseDups`. -/
theorem mem_eraseDups {α} [BEq α] [LawfulBEq α] (a : α) (as : List α) :
    a ∈ as.eraseDups ↔ a ∈ as := by
  simp [List.eraseDups, mem_eraseDups_loop]

/-- `hasUpdateError` decides non-emptiness of the intersection with the
registry keys. -/
theorem hasUpdateError_iff (errors : List String) :
    hasUpdateError errors = true ↔ ∃ e ∈ errors, e ∈ updateErrorKeys := by
  rw [hasUpdateError, intersection, decide_eq_true_iff, gt_iff_lt,
    List.length_pos_iff_exists_mem]
  constructor
  · rintro ⟨x, hx⟩
    rw [List.mem_filter] at hx
    exact ⟨x, (mem_eraseDups x errors).1 hx.1, by simpa [List.elem_iff] using hx.2⟩
  · rintro ⟨e, he, hk⟩
    refine ⟨e, ?_⟩
    rw [List.mem_filter]
    exact ⟨(mem_eraseDups e errors).2 he, by simpa [List.elem_iff] using hk⟩

/-! ### The claims -/

/-- C1: `fixUpdateErrors` obtains the config once, applies the
registered patch of each identifier of the batch in input order (unknown
identifiers only clear the flag), calls `saveConfig` exactly once with
the final config after the whole batch, and returns `true` iff every
identifier of the batch is registered. -/
theorem fixUpdateErrors_spec (current : Config) (errors : List String) :
    (fixUpdateErrors current errors).saved
      = [(errors.filterMap lookupError).foldl (fun cfg patch => patch cfg) current]
    ∧ ((fixUpdateErrors current errors).result = true ↔ ∀ e ∈ errors, hasIn e = true) := by
  constructor
  · simp [fixUpdateErrors, foldl_fixStep_fst]
  · simp [fixUpdateErrors, foldl_fixStep_snd, List.all_eq_true]

/-- C2 counterexample: the fourth patch is not idempotent. On a config
whose `plugins.psuControl.turnOnPSUWhenExitingSleep` is `true`, one
application copies `true` into `octodash.turnOnPrinterWhenExitingSleep`
and deletes the source field, so a second application overwrites the
target with the default `false`. -/
theorem patchTurnOn_not_idempotent :
    patchTurnOnPrinterWhenExitingSleep (patchTurnOnPrinterWhenExitingSleep
      { printer := { zBabystepGCode := none }
        plugins := { tpLinkSmartPlug := none
                     psuControl := { turnOnPSUWhenExitingSleep := some true } }
        octodash := { previewProgressCircle := none, turnOnPrinterWhenExitingSleep := none } })
    ≠ patchTurnOnPrinterWhenExitingSleep
      { printer := { zBabystepGCode := none }
        plugins := { tpLinkSmartPlug := none
                     psuControl := { turnOnPSUWhenExitingSleep := some true } }
        octodash := { previewProgressCircle := none, turnOnPrinterWhenExitingSleep := none } } := by
  decide

/-- C2 amended: the first three registered patches are idempotent on
every config; the fourth is idempotent exactly when the source field
`plugins.psuControl.turnOnPSUWhenExitingSleep ?? false` reads `false`
(absent or `false`), and not when it is `true`. -/
theorem patches_idempotent_amended (c : Config) :
    patchZBabystepGCode (patchZBabystepGCode c) = patchZBabystepGCode c
    ∧ patchTpLinkSmartPlug (patchTpLinkSmartPlug c) = patchTpLinkSmartPlug c
    ∧ patchPreviewProgressCircle (patchPreviewProgressCircle c) = patchPreviewProgressCircle c
    ∧ (patchTurnOnPrinterWhenExitingSleep (patchTurnOnPrinterWhenExitingSleep c)
          = patchTurnOnPrinterWhenExitingSleep c
        ↔ c.plugins.psuControl.turnOnPSUWhenExitingSleep.getD false = false) := by
  obtain ⟨⟨z⟩, ⟨tp, ⟨psu⟩⟩, ⟨prev, turn⟩⟩ := c
  refine ⟨rfl, rfl, rfl, ?_⟩
  cases psu with
  | none => simp [patchTurnOnPrinterWhenExitingSleep]
  | some b => cases b <;> simp [patchTurnOnPrinterWhenExitingSleep]

/-- C3 counterexample: `checkUpdate` never assigns `false`. When the
stripped polled name equals the current version but `updateAvailable`
was already `true`, it stays `true` after the poll, although the
equality test of the claim is false. -/
theorem checkUpdate_keeps_stale_flag :
    removeFirstV "v1.2.0" = "1.2.0"
    ∧ (checkUpdate
        { version := some "1.2.0", latestVersion := some "1.3.0"
          latestVersionAssetsURL := some "u", updateAvailable := true, loadedFile := false }
        (.success "v1.2.0" "u")).state.updateAvailable = true := by
  decide

/-- C3 amended: on a successful poll, the new `updateAvailable` is the
old value OR-ed with the inequality test; it becomes `true` when the
stripped polled name differs from the current version and is left
unchanged otherwise, so it is `false` after a poll with an equal name
only if it was already `false` before. -/
theorem checkUpdate_updateAvailable_or (s : AppState) (name url : String) :
    (checkUpdate s (.success name url)).state.updateAvailable
      = (s.updateAvailable || decide (s.version ≠ some (removeFirstV name))) := by
  by_cases h : s.version = some (removeFirstV name)
  · simp [checkUpdate, h]
  · simp [checkUpdate, h]

/-- C4: the error branch of `checkUpdate` leaves the whole state (hence
`updateAvailable`, `latestVersion`, `latestVersionAssetsURL`) unchanged,
raises no notification, and the next check is still scheduled, once,
after 3600000 ms. -/
theorem checkUpdate_failure_spec (s : AppState) :
    (checkUpdate s .failure).state = s
    ∧ (checkUpdate s .failure).notifications = []
    ∧ (checkUpdate s .failure).scheduledDelays = [3600000] :=
  ⟨rfl, rfl, rfl⟩

/-- C5 counterexample: the code removes the first occurrence of the
character `v` anywhere in the release name, not only a leading one. On
the name `1.0-dev`, which has no leading `v`, the claim says the stored
value is the name unchanged (as `specStripLeadingV` computes), but the
code stores `1.0-de`. -/
theorem latestVersion_strips_inner_v :
    specStripLeadingV "1.0-dev" = "1.0-dev"
    ∧ (checkUpdate initialState (.success "1.0-dev" "u")).state.latestVersion = some "1.0-de"
    ∧ ("1.0-de" : String) ≠ "1.0-dev" := by
  decide

/-- C5 amended: on every successful poll, the stored `latestVersion` is
the release name with its first occurrence of the character `v` (at any
position) removed, and both it and the assets URL are stored
unconditionally, even when equal to the current version. -/
theorem checkUpdate_success_stores (s : AppState) (name url : String) :
    (checkUpdate s (.success name url)).state.latestVersion = some (removeFirstV name)
    ∧ (checkUpdate s (.success name url)).state.latestVersionAssetsURL = some url :=
  ⟨rfl, rfl⟩

/-- C6 counterexample: the version-announcement handler stores the
announced version verbatim, with no stripping; only the polled name is
stripped. So an announced current version `v1.2.0` and a polled release
named `v1.2.0` compare as different and the poll sets `updateAvailable`
to `true`, where the claim promises `false`. -/
theorem version_stored_verbatim :
    (onVersionInformation initialState "v1.2.0").version = some "v1.2.0"
    ∧ (checkUpdate (onVersionInformation initialState "v1.2.0")
        (.success "v1.2.0" "u")).state.updateAvailable = true := by
  decide

/-- C6 amended: only the polled release name is stripped (first `v`
removed); the announced current version is compared verbatim. Hence a
poll whose stripped name equals the announced version verbatim leaves a
previously-false `updateAvailable` at `false`. -/
theorem strip_only_latest (s : AppState) (x name url : String)
    (h : removeFirstV name = x) (hs : s.updateAvailable = false) :
    (checkUpdate (onVersionInformation s x) (.success name url)).state.updateAvailable = false := by
  subst h
  simp [checkUpdate, onVersionInformation, hs]

/-- Witness for the amended C6, at the spec's own example: announced
version 1.2.0, polled name v1.2.0. -/
theorem strip_only_latest_witness :
    (checkUpdate (onVersionInformation initialState "1.2.0")
      (.success "v1.2.0" "u")).state.updateAvailable = false :=
  strip_only_latest initialState "1.2.0" "v1.2.0" "u" (by decide) rfl

/-- C7: `hasUpdateError` returns `true` iff the batch meets the registry
keys, and behaves as documented on the two example batches. -/
theorem hasUpdateError_spec :
    (∀ errors : List String, hasUpdateError errors = true ↔ ∃ e ∈ errors, e ∈ updateErrorKeys)
    ∧ hasUpdateError ["unknown.only"] = false
    ∧ hasUpdateError ["unknown.only",
        ".printer should have required property 'zBabystepGCode'"] = true :=
  ⟨hasUpdateError_iff, by decide, by decide⟩

/-- C8: every `checkUpdate` invocation arms exactly one timer, of
3600000 ms, at invocation time (the model emits the delay with the
invocation itself), whatever the outcome of the poll. -/
theorem checkUpdate_schedules_one_hour (s : AppState) (r : PollResult) :
    (checkUpdate s r).scheduledDelays = [3600000] := by
  cases r <;> rfl

/-- C9: the documented example batch on the empty config returns `true`
and saves, once, a config with `previewProgressCircle = false` and the
documented `tpLinkSmartPlug` object and nothing else set; and the
`zBabystepGCode` patch writes the string `M290 Z`. -/
theorem fixUpdateErrors_example :
    fixUpdateErrors emptyConfig
      [".octodash should have required property 'previewProgressCircle'",
       ".plugins should have required property 'tpLinkSmartPlug'"]
    = { saved := [{ printer := { zBabystepGCode := none }
                    plugins := { tpLinkSmartPlug :=
                                   some { enabled := true, smartPlugIP := "127.0.0.1" }
                                 psuControl := { turnOnPSUWhenExitingSleep := none } }
                    octodash := { previewProgressCircle := some false
                                  turnOnPrinterWhenExitingSleep := none } }]
        result := true }
    ∧ (patchZBabystepGCode emptyConfig).printer.zBabystepGCode = some "M290 Z" := by
  decide

/-- C10: `updateAvailable` starts `false` at construction, no event of
the service ever takes it from `true` back to `false`, and the only
event that can raise it is a successful poll whose stripped name differs
from the stored current version. -/
theorem updateAvailable_monotone :
    initialState.updateAvailable = false
    ∧ (∀ (s : AppState) (e : AppEvent),
        s.updateAvailable = true → (step s e).updateAvailable = true)
    ∧ (∀ (s : AppState) (e : AppEvent),
        (step s e).updateAvailable = true →
          s.updateAvailable = true
          ∨ ∃ name url, e = AppEvent.pollSuccess name url
              ∧ s.version ≠ some (removeFirstV name)) := by
  refine ⟨rfl, ?_, ?_⟩
  · intro s e h
    cases e with
    | versionInformation v => exact h
    | pollFailure => exact h
    | loadedFile b => exact h
    | pollSuccess name url =>
        by_cases hc : s.version = some (removeFirstV name)
        · simpa [step, checkUpdate, hc] using h
        · simp [step, checkUpdate, hc]
  · intro s e h
    cases e with
    | versionInformation v => exact Or.inl h
    | pollFailure => exact Or.inl h
    | loadedFile b => exact Or.inl h
    | pollSuccess name url =>
        by_cases hc : s.version = some (removeFirstV name)
        · left
          simpa [step, checkUpdate, hc] using h
        · right
          exact ⟨name, url, rfl, hc⟩

/-- Witness for C10: the monotone part applied at a concrete state with
the flag already raised and a failing poll. -/
theorem updateAvailable_monotone_witness :
    (step { version := none, latestVersion := none, latestVersionAssetsURL := none
            updateAvailable := true, loadedFile := false }
      AppEvent.pollFailure).updateAvailable = true :=
  updateAvailable_monotone.2.1
    { version := none, latestVersion := none, latestVersionAssetsURL := none
      updateAvailable := true, loadedFile := false }
    AppEvent.pollFailure rfl

end OctoDash
